import Mathlib

/-
Verification of the AI-Web-Scraper pipeline (Canadian Tire scraper).

Shallow embedding of the Python sources:
  - canadiantire_scraper/models/product.py           (data model)
  - load_data_to_mongodb.py                          (persistence loader)
  - canadiantire_scraper/scrapers/price_scraper.py   (price fetcher)
  - canadiantire_scraper/scrapers/review_scraper.py  (review fetcher)
  - canadiantire_scraper/utils/product_searcher.py   (search / discovery)
  - canadiantire_scraper/utils/data_manager.py       (resume set)
  - canadiantire_scraper/orchestrator.py             (single-product workflow)
  - canadiantire_scraper/cli.py                      (exit codes)

Machine integers are modelled as Nat/Int, Python floats on the JSON data
paths as rationals, fallible steps as Except/Option, HTTP backends as
response streams, and unbounded Python `while` loops as fuel-indexed
recursions (a `none` result means the fuel ran out, i.e. the loop had not
terminated within that many iterations).
-/

set_option maxHeartbeats 1000000

namespace Scraper

/-! ## Data model — canadiantire_scraper/models/product.py -/

/-- Review dataclass (models/product.py).  `rating` is the Python int field
(0 means unknown/unparsed).  Nested comment records are kept opaque. -/
structure Review where
  review_id : String
  author : String
  rating : Int
  title : String
  text : String
  date : String
  source : String := "api"
  verified_purchase : Bool := false
  recommendation : Option Bool := none
  submission_time : Option String := none
  comments : List (String × String × String) := []
deriving DecidableEq, Repr

/-- Product dataclass (models/product.py).  `rating` is the nullable
vendor rating; Python floats are modelled as rationals.  The price_info,
highlights and features fields do not take part in get_average_rating and
are kept opaque here. -/
structure Product where
  product_id : String
  name : String
  category : String := "Unknown"
  brand : Option String := none
  url : Option String := none
  image_url : Option String := none
  rating : Option ℚ := none
  ratings_count : Option Int := none
  reviews : List Review := []
  scraped_at : String := ""
deriving DecidableEq, Repr

/-- Product.get_average_rating (models/product.py lines 100-106):
if not self.reviews: return self.rating;
ratings = [r.rating for r in self.reviews if r.rating > 0];
return sum(ratings) / len(ratings) if ratings else None. -/
def Product.get_average_rating (p : Product) : Option ℚ :=
  if p.reviews = [] then p.rating
  else
    let ratings := (p.reviews.filter (fun r => 0 < r.rating)).map (fun r => r.rating)
    if ratings = [] then none
    else some ((ratings.sum : ℚ) / (ratings.length : ℚ))

/-- C10: get_average_rating returns the stored rating field when the reviews
list is empty; on a non-empty list it returns the arithmetic mean of only the
review ratings strictly greater than 0; and it returns None (no division by
zero occurs) when every review rating equals 0. -/
theorem get_average_rating_spec (p : Product) :
    (p.reviews = [] → p.get_average_rating = p.rating) ∧
    (p.reviews ≠ [] → (∃ r ∈ p.reviews, 0 < r.rating) →
      p.get_average_rating =
        some ((((p.reviews.filter (fun r => 0 < r.rating)).map (fun r => r.rating)).sum : ℚ) /
          (((p.reviews.filter (fun r => 0 < r.rating)).length : ℚ)))) ∧
    (p.reviews ≠ [] → (∀ r ∈ p.reviews, r.rating = 0) →
      p.get_average_rating = none) := by
  refine ⟨fun h => by simp [Product.get_average_rating, h], ?_, ?_⟩
  · intro hne hex
    have hfilter : (p.reviews.filter (fun r => 0 < r.rating)) ≠ [] := by
      obtain ⟨r, hr, hpos⟩ := hex
      intro hcontra
      have : r ∈ p.reviews.filter (fun r => 0 < r.rating) :=
        List.mem_filter.mpr ⟨hr, by simpa using hpos⟩
      simp [hcontra] at this
    have hmap : ((p.reviews.filter (fun r => 0 < r.rating)).map (fun r => r.rating)) ≠ [] := by
      simpa using hfilter
    simp only [Product.get_average_rating, if_neg hne, if_neg hmap]
    simp
    exact hex
  · intro hne hall
    have hfilter : (p.reviews.filter (fun r => 0 < r.rating)) = [] := by
      rw [List.filter_eq_nil_iff]
      intro r hr
      simp [hall r hr]
    simp [Product.get_average_rating, if_neg hne, hfilter]

/-! ## Persistence loader — load_data_to_mongodb.py, save_reviews_fixed -/

/-- One raw review record as read from a JSON artifact and passed to
save_reviews_fixed.  Fields are typed per the artifact shape; `none` stands
for a missing or null key.  Date strings are carried opaquely: the loader's
datetime normalisation is total (all its exceptions are caught internally,
lines 48-71) and takes no part in duplicate detection, so the parsed-datetime
value is not modelled. -/
structure ReviewRec where
  review_id : Option String
  author : Option String
  rating : Option Int
  title : Option String
  text : Option String
  submission_time : Option String
  date : Option String
  verified_purchase : Bool := false
  helpful_count : Int := 0
  comments : List String := []
deriving DecidableEq, Repr

/-- One document of the `reviews` collection as built at lines 74-88
(submission_time kept as its raw string form, see ReviewRec). -/
structure ReviewDoc where
  product_id : String
  review_id : String
  author : String
  rating : Int
  title : String
  text : String
  submission_time_string : String
  verified_purchase : Bool
  helpful_count : Int
  comments : List String
  source : String
deriving DecidableEq, Repr

/-- review.get('submission_time') or review.get('date') (line 46). -/
def ReviewRec.submissionOrDate (r : ReviewRec) : Option String :=
  match r.submission_time with
  | some s => if s = "" then r.date else some s
  | none => r.date

/-- The review document built for one record (lines 74-88). -/
def mkReviewDoc (pid : String) (r : ReviewRec) (author : String) (source : String) : ReviewDoc where
  product_id := pid
  review_id := (r.review_id).getD ""
  author := author
  rating := (r.rating).getD 0
  title := (r.title).getD ""
  text := (r.text).getD ""
  submission_time_string := match r.submissionOrDate with | some s => s | none => ""
  verified_purchase := r.verified_purchase
  helpful_count := r.helpful_count
  comments := r.comments
  source := source

/-- reviews_collection.find_one with a review_id filter, over the
collection modelled as the list of inserted documents. -/
def findByReviewId (store : List ReviewDoc) (rid : String) : Option ReviewDoc :=
  store.find? (fun d => d.review_id = rid)

/-- The for-loop of save_reviews_fixed (lines 22-115): skip a record whose
review_id is missing or empty; substitute Anonymous_<n> for a missing or
empty author (display only); insert the document iff no stored document has
this review_id.  Returns the updated store and saved_count. -/
def save_reviews_fixed_loop (pid : String) (source : String) :
    List ReviewRec → List ReviewDoc → Nat → Nat → List ReviewDoc × Nat
  | [], store, _, saved => (store, saved)
  | r :: rest, store, anonCounter, saved =>
    match r.review_id with
    | none => save_reviews_fixed_loop pid source rest store anonCounter saved
    | some rid =>
      if rid = "" then save_reviews_fixed_loop pid source rest store anonCounter saved
      else
        let authorStep : String × Nat :=
          match r.author with
          | none => ("Anonymous_" ++ toString anonCounter, anonCounter + 1)
          | some a => if a = "" then ("Anonymous_" ++ toString anonCounter, anonCounter + 1)
                      else (a, anonCounter)
        match findByReviewId store rid with
        | none =>
            save_reviews_fixed_loop pid source rest
              (store ++ [mkReviewDoc pid r authorStep.1 source]) authorStep.2 (saved + 1)
        | some _ => save_reviews_fixed_loop pid source rest store authorStep.2 saved

/-- save_reviews_fixed (lines 17-117), run against an initially empty
reviews collection; anonymous_counter starts at 1, saved_count at 0. -/
def save_reviews_fixed (pid : String) (reviews : List ReviewRec) (source : String) :
    List ReviewDoc × Nat :=
  save_reviews_fixed_loop pid source reviews [] 1 0

/-- A nonempty review_id occurs in the input records. -/
def idOccurs (reviews : List ReviewRec) (rid : String) : Prop :=
  rid ≠ "" ∧ some rid ∈ reviews.map (fun r => r.review_id)

lemma findByReviewId_eq_none_iff (store : List ReviewDoc) (rid : String) :
    findByReviewId store rid = none ↔ rid ∉ store.map (fun d => d.review_id) := by
  constructor
  · intro h hmem
    obtain ⟨d, hd, hdid⟩ := List.mem_map.mp hmem
    have := List.find?_eq_none.mp h d hd
    simp [hdid] at this
  · intro h
    apply List.find?_eq_none.mpr
    intro d hd
    by_contra hc
    exact h (List.mem_map.mpr ⟨d, hd, by simpa using hc⟩)

lemma save_reviews_fixed_loop_ids (pid source : String) (reviews : List ReviewRec) :
    ∀ (store : List ReviewDoc) (anonCounter saved : Nat),
      (store.map (fun d => d.review_id)).Nodup →
      ((save_reviews_fixed_loop pid source reviews store anonCounter saved).1.map
          (fun d => d.review_id)).Nodup ∧
      (∀ rid : String,
        rid ∈ (save_reviews_fixed_loop pid source reviews store anonCounter saved).1.map
            (fun d => d.review_id) ↔
          rid ∈ store.map (fun d => d.review_id) ∨ idOccurs reviews rid) := by
  induction reviews with
  | nil =>
    intro store anonCounter saved hnd
    refine ⟨by simpa [save_reviews_fixed_loop] using hnd, ?_⟩
    intro rid
    simp [save_reviews_fixed_loop, idOccurs]
  | cons r rest ih =>
    intro store anonCounter saved hnd
    match hrid : r.review_id with
    | none =>
      have step :
          save_reviews_fixed_loop pid source (r :: rest) store anonCounter saved =
            save_reviews_fixed_loop pid source rest store anonCounter saved := by
        simp [save_reviews_fixed_loop, hrid]
      rw [step]
      obtain ⟨h1, h2⟩ := ih store anonCounter saved hnd
      refine ⟨h1, ?_⟩
      intro rid
      rw [h2 rid]
      simp [idOccurs, hrid]
    | some rid₀ =>
      by_cases hemp : rid₀ = ""
      · have step :
            save_reviews_fixed_loop pid source (r :: rest) store anonCounter saved =
              save_reviews_fixed_loop pid source rest store anonCounter saved := by
          simp [save_reviews_fixed_loop, hrid, hemp]
        rw [step]
        obtain ⟨h1, h2⟩ := ih store anonCounter saved hnd
        refine ⟨h1, ?_⟩
        intro rid
        rw [h2 rid]
        subst hemp
        simp only [idOccurs, List.map_cons, hrid, List.mem_cons, Option.some.injEq]
        tauto
      · set authorStep : String × Nat :=
          match r.author with
          | none => ("Anonymous_" ++ toString anonCounter, anonCounter + 1)
          | some a => if a = "" then ("Anonymous_" ++ toString anonCounter, anonCounter + 1)
                      else (a, anonCounter) with hauthor
        match hfind : findByReviewId store rid₀ with
        | none =>
          have step :
              save_reviews_fixed_loop pid source (r :: rest) store anonCounter saved =
                save_reviews_fixed_loop pid source rest
                  (store ++ [mkReviewDoc pid r authorStep.1 source]) authorStep.2 (saved + 1) := by
            simp [save_reviews_fixed_loop, hrid, hemp, ← hauthor, hfind]
          rw [step]
          have hnotmem : rid₀ ∉ store.map (fun d => d.review_id) :=
            (findByReviewId_eq_none_iff store rid₀).mp hfind
          have hnd2 : ((store ++ [mkReviewDoc pid r authorStep.1 source]).map
              (fun d => d.review_id)).Nodup := by
            rw [List.map_append]
            rw [List.nodup_append]
            refine ⟨hnd, by simp, ?_⟩
            intro x hx
            simp only [List.map_cons, List.map_nil, List.mem_singleton, mkReviewDoc, hrid]
            intro hc
            rw [hc] at hx
            simp only [Option.getD_some] at hx
            exact hnotmem hx
          obtain ⟨h1, h2⟩ := ih (store ++ [mkReviewDoc pid r authorStep.1 source])
            authorStep.2 (saved + 1) hnd2
          refine ⟨h1, ?_⟩
          intro rid
          rw [h2 rid]
          have hne0 : rid = rid₀ → rid ≠ "" := by
            intro h
            rw [h]
            exact hemp
          simp only [List.map_append, List.mem_append, List.map_cons, List.map_nil,
            List.mem_cons, List.not_mem_nil, or_false, mkReviewDoc, hrid,
            Option.getD_some, idOccurs, Option.some.injEq]
          tauto
        | some d =>
          have step :
              save_reviews_fixed_loop pid source (r :: rest) store anonCounter saved =
                save_reviews_fixed_loop pid source rest store authorStep.2 saved := by
            simp [save_reviews_fixed_loop, hrid, hemp, ← hauthor, hfind]
          rw [step]
          have hdmem : rid₀ ∈ store.map (fun d => d.review_id) := by
            have hmem := List.mem_of_find?_eq_some hfind
            have hpred := List.find?_some hfind
            simp only [decide_eq_true_eq] at hpred
            exact List.mem_map.mpr ⟨d, hmem, hpred⟩
          obtain ⟨h1, h2⟩ := ih store authorStep.2 saved hnd
          refine ⟨h1, ?_⟩
          intro rid
          rw [h2 rid]
          have hmem0 : rid = rid₀ → rid ∈ store.map (fun d => d.review_id) := by
            intro h
            rw [h]
            exact hdmem
          simp only [idOccurs, List.map_cons, hrid, List.mem_cons, Option.some.injEq]
          tauto

/-- C1: save_reviews_fixed deduplicates strictly by review_id.  Over a store
modelled as the list of inserted documents, keyed by review_id: the stored
review_ids are pairwise distinct (any two records with the same review_id
yield exactly one document); a review_id is stored iff it is nonempty and
occurs among the input records (so records with missing or empty review_id
store nothing); and two records with distinct nonempty review_ids are both
stored regardless of their (possibly identical) authors. -/
theorem save_reviews_fixed_dedup (pid source : String) (reviews : List ReviewRec) :
    (((save_reviews_fixed pid reviews source).1.map (fun d => d.review_id)).Nodup) ∧
    (∀ rid : String,
      rid ∈ (save_reviews_fixed pid reviews source).1.map (fun d => d.review_id) ↔
        (rid ≠ "" ∧ some rid ∈ reviews.map (fun r => r.review_id))) ∧
    (∀ r1 r2 : ReviewRec, ∀ a b : String, r1 ∈ reviews → r2 ∈ reviews →
      r1.review_id = some a → r2.review_id = some b → a ≠ b → a ≠ "" → b ≠ "" →
      r1.author = r2.author →
      a ∈ (save_reviews_fixed pid reviews source).1.map (fun d => d.review_id) ∧
      b ∈ (save_reviews_fixed pid reviews source).1.map (fun d => d.review_id)) := by
  obtain ⟨h1, h2⟩ := save_reviews_fixed_loop_ids pid source reviews [] 1 0 (by simp)
  refine ⟨h1, ?_, ?_⟩
  · intro rid
    rw [show save_reviews_fixed pid reviews source =
      save_reviews_fixed_loop pid source reviews [] 1 0 from rfl, h2 rid]
    simp [idOccurs]
  · intro r1 r2 a b hr1 hr2 hid1 hid2 _ ha hb _
    constructor
    · rw [show save_reviews_fixed pid reviews source =
        save_reviews_fixed_loop pid source reviews [] 1 0 from rfl, h2 a]
      exact Or.inr ⟨ha, List.mem_map.mpr ⟨r1, hr1, hid1⟩⟩
    · rw [show save_reviews_fixed pid reviews source =
        save_reviews_fixed_loop pid source reviews [] 1 0 from rfl, h2 b]
      exact Or.inr ⟨hb, List.mem_map.mpr ⟨r2, hr2, hid2⟩⟩

/-! ## JSON values and Python-dict semantics

Used by the price fetcher (price_scraper.py).  Python floats appearing in
parsed JSON are modelled as rationals; `Except` models a raised exception. -/

inductive Json where
  | null : Json
  | bool (b : Bool) : Json
  | num (q : ℚ) : Json
  | str (s : String) : Json
  | arr (elems : List Json) : Json
  | obj (fields : List (String × Json)) : Json

/-- Python truthiness of a JSON value. -/
def Json.truthy : Json → Bool
  | .null => false
  | .bool b => b
  | .num q => decide (q ≠ 0)
  | .str s => decide (s ≠ "")
  | .arr l => !l.isEmpty
  | .obj l => !l.isEmpty

/-- First binding of a key in a JSON-object field list (Python dicts have
unique keys; first occurrence wins here, consistently everywhere below). -/
def objLookup (fields : List (String × Json)) (k : String) : Option Json :=
  (fields.find? (fun p => p.1 = k)).map (fun p => p.2)

/-- Python `k in j` for a string k: dict key membership, list membership of
the string, substring test on a string; a TypeError on the other types. -/
def pyContains (j : Json) (k : String) : Except String Bool :=
  match j with
  | .obj fields => .ok (objLookup fields k).isSome
  | .arr l => .ok (l.any (fun x => match x with | .str s => s = k | _ => false))
  | .str s => .ok (k = "" ∨ 1 < (s.splitOn k).length)
  | _ => .error "TypeError: argument of type is not iterable"

/-- Python `j[k]` for a string key k: dict lookup (KeyError when absent),
TypeError on every other type. -/
def pyIndex (j : Json) (k : String) : Except String Json :=
  match j with
  | .obj fields =>
    match objLookup fields k with
    | some v => .ok v
    | none => .error "KeyError"
  | _ => .error "TypeError: indices must not be str"

/-- Python `j[0]`: first element of a list, first character of a string
(IndexError when empty), TypeError otherwise. -/
def pyIndexZero : Json → Except String Json
  | .arr (x :: _) => .ok x
  | .arr [] => .error "IndexError"
  | .str s =>
    match s.data with
    | c :: _ => .ok (.str (String.mk [c]))
    | [] => .error "IndexError"
  | _ => .error "TypeError"

/-- Python `j.get(k, d)`: total on dicts, AttributeError otherwise. -/
def pyGetD (j : Json) (k : String) (d : Json) : Except String Json :=
  match j with
  | .obj fields => .ok ((objLookup fields k).getD d)
  | _ => .error "AttributeError: get"

/-- Python float() coercion on a JSON value.  Numbers pass through; bools
coerce to 1/0 (bool is an int subclass); None and containers raise.
Numeric-string parsing (float of a decimal string succeeds in Python) is not
modelled and mapped to an error: no theorem below depends on string-typed
price fields. -/
def pyFloat : Json → Except String ℚ
  | .num q => .ok q
  | .bool b => .ok (if b then 1 else 0)
  | .str _ => .error "float parsing of strings not modelled"
  | _ => .error "TypeError: float"

/-! ## Price fetcher — canadiantire_scraper/scrapers/price_scraper.py -/

/-- PriceInfo dataclass (models/product.py) as constructed by
fetch_product_price.  in_stock, inventory_count and the store-availability
fields hold the raw JSON values the Python code passes through unchecked. -/
structure PriceInfo where
  product_id : String
  current_price : Option ℚ
  original_price : Option ℚ
  sale_price : Option ℚ
  currency : String := "CAD"
  in_stock : Json
  inventory_count : Option Json
  store_shelf_location : Json
  urgent_low_stock : Json
  warranty : Json

/-- Truthiness of a float-or-None Python value (0.0 is falsy). -/
def truthyOptQ : Option ℚ → Bool
  | none => false
  | some q => decide (q ≠ 0)

/-- Lines 86-96 of price_scraper.py: extract current_price from sku_data.
current_price starts None; when 'currentPrice' is present and truthy, a dict
with a 'value' key is coerced with float(), a bare int/float (bools included)
is coerced with float(), and anything else leaves None. -/
def extractCurrentPrice (skuData : Json) : Except String (Option ℚ) :=
  match pyContains skuData "currentPrice" with
  | .error e => .error e
  | .ok false => .ok none
  | .ok true =>
    match pyIndex skuData "currentPrice" with
    | .error e => .error e
    | .ok priceObj =>
      if priceObj.truthy then
        match priceObj with
        | .obj vfields =>
          if (objLookup vfields "value").isSome then
            match pyIndex priceObj "value" with
            | .error e => .error e
            | .ok v =>
              match pyFloat v with
              | .error e => .error e
              | .ok q => .ok (some q)
          else .ok none
        | .num q => .ok (some q)
        | .bool b => .ok (some (if b then 1 else 0))
        | _ => .ok none
      else .ok none

/-- Lines 99-100: original_price, same guard shape as currentPrice but a
direct float() with no dict case. -/
def extractOriginalPrice (skuData : Json) : Except String (Option ℚ) :=
  match pyContains skuData "originalPrice" with
  | .error e => .error e
  | .ok false => .ok none
  | .ok true =>
    match pyIndex skuData "originalPrice" with
    | .error e => .error e
    | .ok ov =>
      if ov.truthy then
        match pyFloat ov with
        | .error e => .error e
        | .ok q => .ok (some q)
      else .ok none

/-- Lines 83-137 of fetch_product_price: parse the first SKU record into a
PriceInfo. -/
def parseSku (pid : String) (skuData : Json) : Except String (Option PriceInfo) :=
  match extractCurrentPrice skuData with
  | .error e => .error e
  | .ok current_price =>
    match extractOriginalPrice skuData with
    | .error e => .error e
    | .ok original_price =>
      match pyGetD skuData "isOnSale" (.bool false) with
      | .error e => .error e
      | .ok isOnSale =>
        let sale_price :=
          if isOnSale.truthy && truthyOptQ original_price && truthyOptQ current_price
          then current_price else none
        match pyGetD skuData "sellable" (.bool false) with
        | .error e => .error e
        | .ok in_stock =>
          match pyGetD skuData "fulfillment" (.obj []) with
          | .error e => .error e
          | .ok fulfillment =>
            match pyGetD fulfillment "availability" (.obj []) with
            | .error e => .error e
            | .ok availability =>
              match pyContains availability "quantity" with
              | .error e => .error e
              | .ok hasQty =>
                let invStep : Except String (Option Json) :=
                  if hasQty then
                    match pyIndex availability "quantity" with
                    | .error e => .error e
                    | .ok v => .ok (some v)
                  else .ok none
                match invStep with
                | .error e => .error e
                | .ok inventory_count =>
                  match pyGetD skuData "storeShelfLocation" (.str "N/A") with
                  | .error e => .error e
                  | .ok shelf =>
                    match pyGetD skuData "isUrgentLowStock" (.bool false) with
                    | .error e => .error e
                    | .ok lowStock =>
                      match pyGetD skuData "warrantyMessage" (.str "N/A") with
                      | .error e => .error e
                      | .ok warranty =>
                        .ok (some
                          { product_id := pid
                            current_price := current_price
                            original_price := original_price
                            sale_price := sale_price
                            in_stock := in_stock
                            inventory_count := inventory_count
                            store_shelf_location := shelf
                            urgent_low_stock := lowStock
                            warranty := warranty })

/-- An HTTP response: status code plus the parsed body (`none` when
response.json() raises). -/
structure HttpResp where
  status : Nat
  body : Option Json

/-- Lines 61-137 of fetch_product_price, inside the try block: non-200 →
None; unparseable body → raise; `not data or "skus" not in data or not
data["skus"]` → None; then parse data["skus"][0]. -/
def fetchPriceBody (pid : String) (resp : HttpResp) : Except String (Option PriceInfo) :=
  if resp.status ≠ 200 then .ok none
  else
    match resp.body with
    | none => .error "json decode error"
    | some data =>
      if !data.truthy then .ok none
      else
        match pyContains data "skus" with
        | .error e => .error e
        | .ok false => .ok none
        | .ok true =>
          match pyIndex data "skus" with
          | .error e => .error e
          | .ok skus =>
            if !skus.truthy then .ok none
            else
              match pyIndexZero skus with
              | .error e => .error e
              | .ok skuData => parseSku pid skuData

/-- fetch_product_price (lines 23-141): the whole body sits in a
try/except that returns None on any exception. -/
def fetch_product_price (pid : String) (resp : HttpResp) : Option PriceInfo :=
  match fetchPriceBody pid resp with
  | .ok r => r
  | .error _ => none

lemma objLookup_some_ne_nil {fields : List (String × Json)} {k : String} {v : Json}
    (h : objLookup fields k = some v) : fields.isEmpty = false := by
  cases fields with
  | nil => simp [objLookup] at h
  | cons a l => simp [List.isEmpty]

/-- C5 counterexample: a SKU whose currentPrice field is the bare number 0.
The claim says the extracted current_price equals float 0; the code's
truthiness guard (line 91, `and sku_data["currentPrice"]`) treats the bare 0
as falsy and leaves current_price = None. -/
theorem extract_current_price_zero_counterexample :
    extractCurrentPrice (Json.obj [("currentPrice", Json.num 0)]) = .ok none ∧
    (Except.ok (none : Option ℚ) : Except String (Option ℚ)) ≠ .ok (some 0) := by
  constructor
  · rfl
  · simp

/-- C5 (amended): currentPrice extraction over the three documented shapes,
with the bare-number case corrected for the truthiness guard: a bare nonzero
number N yields float N, but a bare 0 yields None; an object with a numeric
value field N yields float N (0 included); None or an absent field yields
None; and the extraction returns (never raises) on all these shapes. -/
theorem extract_current_price_spec (fs : List (String × Json)) (q : ℚ) :
    (objLookup fs "currentPrice" = some (.num q) → q ≠ 0 →
      extractCurrentPrice (.obj fs) = .ok (some q)) ∧
    (objLookup fs "currentPrice" = some (.num 0) →
      extractCurrentPrice (.obj fs) = .ok none) ∧
    (∀ vfs : List (String × Json), objLookup fs "currentPrice" = some (.obj vfs) →
      objLookup vfs "value" = some (.num q) →
      extractCurrentPrice (.obj fs) = .ok (some q)) ∧
    (objLookup fs "currentPrice" = some .null →
      extractCurrentPrice (.obj fs) = .ok none) ∧
    (objLookup fs "currentPrice" = none →
      extractCurrentPrice (.obj fs) = .ok none) := by
  refine ⟨?_, ?_, ?_, ?_, ?_⟩
  · intro h hq
    simp [extractCurrentPrice, pyContains, pyIndex, h, Json.truthy, hq]
  · intro h
    simp [extractCurrentPrice, pyContains, pyIndex, h, Json.truthy]
  · intro vfs h hv
    have hne := objLookup_some_ne_nil hv
    simp [extractCurrentPrice, pyContains, pyIndex, h, hv, Json.truthy, hne, pyFloat]
  · intro h
    simp [extractCurrentPrice, pyContains, pyIndex, h, Json.truthy]
  · intro h
    simp [extractCurrentPrice, pyContains, h]

/-- C6: fetch_product_price returns None (a no-data result, not an error)
whenever the HTTP status is not 200, the body cannot be parsed, the parsed
body is empty/falsy, the 'skus' key is absent, or the 'skus' list is empty;
and it returns a PriceInfo only when the body is an object whose truthy
'skus' entry yields a first SKU record. -/
theorem fetch_product_price_no_data (pid : String) (resp : HttpResp) :
    (resp.status ≠ 200 → fetch_product_price pid resp = none) ∧
    (resp.body = none → fetch_product_price pid resp = none) ∧
    (∀ j : Json, resp.body = some j → j.truthy = false →
      fetch_product_price pid resp = none) ∧
    (∀ fs : List (String × Json), resp.body = some (.obj fs) →
      objLookup fs "skus" = none → fetch_product_price pid resp = none) ∧
    (∀ fs : List (String × Json), resp.body = some (.obj fs) →
      objLookup fs "skus" = some (.arr []) → fetch_product_price pid resp = none) ∧
    (∀ info : PriceInfo, fetch_product_price pid resp = some info →
      resp.status = 200 ∧ ∃ fs : List (String × Json), ∃ skus : Json,
        resp.body = some (.obj fs) ∧ objLookup fs "skus" = some skus ∧
        skus.truthy = true ∧ ∃ sku : Json, pyIndexZero skus = .ok sku) := by
  refine ⟨?_, ?_, ?_, ?_, ?_, ?_⟩
  · intro h
    simp [fetch_product_price, fetchPriceBody, h]
  · intro h
    by_cases hs : resp.status ≠ 200 <;>
      simp [fetch_product_price, fetchPriceBody, hs, h]
  · intro j hj htr
    by_cases hs : resp.status ≠ 200 <;>
      simp [fetch_product_price, fetchPriceBody, hs, hj, htr]
  · intro fs hb hsk
    by_cases hs : resp.status ≠ 200 <;>
      simp [fetch_product_price, fetchPriceBody, hs, hb, pyContains, hsk, Json.truthy]
  · intro fs hb hsk
    by_cases hs : resp.status ≠ 200
    · simp [fetch_product_price, fetchPriceBody, hs]
    · have hne : fs.isEmpty = false := objLookup_some_ne_nil hsk
      simp [fetch_product_price, fetchPriceBody, hs, hb, pyContains, pyIndex, hsk,
        Json.truthy, hne]
  · intro info h
    by_cases hs : resp.status ≠ 200
    · simp [fetch_product_price, fetchPriceBody, hs] at h
    · refine ⟨by omega, ?_⟩
      match hb : resp.body with
      | none => simp [fetch_product_price, fetchPriceBody, hs, hb] at h
      | some (.null) => simp [fetch_product_price, fetchPriceBody, hs, hb, Json.truthy] at h
      | some (.bool b) =>
        simp [fetch_product_price, fetchPriceBody, hs, hb, Json.truthy, pyContains] at h
        cases b <;> simp_all
      | some (.num q) =>
        by_cases hq : q = 0 <;>
          simp [fetch_product_price, fetchPriceBody, hs, hb, Json.truthy, pyContains, hq] at h
      | some (.str s) =>
        by_cases hse : s = ""
        · simp [fetch_product_price, fetchPriceBody, hs, hb, Json.truthy, hse] at h
        · cases hlen : decide (1 < (s.splitOn "skus").length) <;>
            simp [fetch_product_price, fetchPriceBody, hs, hb, Json.truthy, pyContains,
              pyIndex, hse, hlen] at h
      | some (.arr l) =>
        cases l with
        | nil => simp [fetch_product_price, fetchPriceBody, hs, hb, Json.truthy] at h
        | cons x xs =>
          cases hany : (x :: xs).any
              (fun y => match y with | .str s => s = "skus" | _ => false) <;>
            simp [fetch_product_price, fetchPriceBody, hs, hb, Json.truthy, pyContains,
              pyIndex, hany] at h
      | some (.obj fs) =>
        cases hne : fs.isEmpty with
        | true =>
          have : fs = [] := by
            cases fs with
            | nil => rfl
            | cons a l => simp [List.isEmpty] at hne
          simp [fetch_product_price, fetchPriceBody, hs, hb, this, Json.truthy] at h
        | false =>
          match hsk : objLookup fs "skus" with
          | none =>
            simp [fetch_product_price, fetchPriceBody, hs, hb, Json.truthy, hne,
              pyContains, hsk] at h
          | some skus =>
            have hdt : (Json.obj fs).truthy = true := by simp [Json.truthy, hne]
            cases htr : skus.truthy with
            | false =>
              exfalso
              simp [fetch_product_price, fetchPriceBody, hs, hb, hdt, hne,
                pyContains, pyIndex, hsk, htr] at h
            | true =>
              match hz : pyIndexZero skus with
              | .error e =>
                exfalso
                simp [fetch_product_price, fetchPriceBody, hs, hb, hdt, hne,
                  pyContains, pyIndex, hsk, htr, hz] at h
              | .ok sku => exact ⟨fs, skus, rfl, hsk, htr, sku, hz⟩

/-! ## Review fetcher — canadiantire_scraper/scrapers/review_scraper.py

fetch_reviews (lines 23-97).  The Bazaarvoice backend is a stream of page
responses; `PageResp.fail` covers both a non-200 status and a body that
raises during parsing (both hit `break` through the status check or the
surrounding except-clause).  A page's record list is
data.get("response", {}).get("Results", []).  The loop consumes one response
per iteration (offset advances by `limit` each time); the recursion shifts
the stream accordingly.  Fuel 201 suffices because every non-final iteration
grows the accumulator, which is capped at 200. -/

inductive PageResp (α : Type) where
  | fail : PageResp α
  | page (results : List α) : PageResp α

/-- Records contributed by one response (a failed response contributes
nothing: the loop breaks before extending). -/
def pageRecs {α : Type} : PageResp α → List α
  | .fail => []
  | .page rs => rs

/-- A response that keeps the loop going: a parsed page with at least one
record. -/
def goodPage {α : Type} : PageResp α → Bool
  | .page (_ :: _) => true
  | _ => false

/-- The while-True loop of fetch_reviews: break on failure or an empty
Results list, else extend, then break once 200 records are accumulated. -/
def fetch_reviews_loop {α : Type} : Nat → (Nat → PageResp α) → List α → Option (List α)
  | 0, _, _ => none
  | fuel + 1, backend, acc =>
    match backend 0 with
    | .fail => some acc
    | .page [] => some acc
    | .page rs =>
      let acc2 := acc ++ rs
      if 200 ≤ acc2.length then some acc2
      else fetch_reviews_loop fuel (fun k => backend (k + 1)) acc2

/-- fetch_reviews: run the pagination loop from an empty accumulator. -/
def fetch_reviews {α : Type} (backend : Nat → PageResp α) : Option (List α) :=
  fetch_reviews_loop 201 backend []

/-- Records accumulated from the first n responses of the stream. -/
def accumPages {α : Type} (backend : Nat → PageResp α) : Nat → List α
  | 0 => []
  | n + 1 => accumPages backend n ++ pageRecs (backend n)

lemma accumPages_shift {α : Type} (backend : Nat → PageResp α) (n : Nat) :
    pageRecs (backend 0) ++ accumPages (fun k => backend (k + 1)) n =
      accumPages backend (n + 1) := by
  induction n with
  | zero => simp [accumPages]
  | succ m ih =>
    have h1 : accumPages (fun k => backend (k + 1)) (m + 1) =
        accumPages (fun k => backend (k + 1)) m ++ pageRecs (backend (m + 1)) := rfl
    have h2 : accumPages backend (m + 1 + 1) =
        accumPages backend (m + 1) ++ pageRecs (backend (m + 1)) := rfl
    rw [h1, ← List.append_assoc, ih, h2]

lemma fetch_reviews_loop_spec {α : Type} :
    ∀ (fuel : Nat) (backend : Nat → PageResp α) (acc : List α),
      200 - acc.length < fuel →
      ∃ n : Nat,
        fetch_reviews_loop fuel backend acc = some (acc ++ accumPages backend n) ∧
        (∀ k, k < n → goodPage (backend k) = true) ∧
        (∀ k, k + 1 < n → (acc ++ accumPages backend (k + 1)).length < 200) ∧
        (200 ≤ (acc ++ accumPages backend n).length ∨ goodPage (backend n) = false) := by
  intro fuel
  induction fuel with
  | zero =>
    intro backend acc h
    omega
  | succ fuel ih =>
    intro backend acc h
    match hb : backend 0 with
    | .fail =>
      refine ⟨0, ?_, by omega, by omega, Or.inr (by rw [hb]; rfl)⟩
      simp [fetch_reviews_loop, hb, accumPages]
    | .page [] =>
      refine ⟨0, ?_, by omega, by omega, Or.inr (by rw [hb]; rfl)⟩
      simp [fetch_reviews_loop, hb, accumPages]
    | .page (r :: rs) =>
      have hacc1 : acc ++ accumPages backend 1 = acc ++ (r :: rs) := by
        simp [accumPages, hb, pageRecs]
      by_cases hcap : 200 ≤ (acc ++ (r :: rs)).length
      · refine ⟨1, ?_, ?_, by omega, Or.inl (by rw [hacc1]; exact hcap)⟩
        · rw [hacc1]
          simp only [fetch_reviews_loop, hb]
          rw [if_pos hcap]
        · intro k hk
          have : k = 0 := by omega
          subst this
          rw [hb]
          rfl
      · have hlen : (acc ++ (r :: rs)).length = acc.length + rs.length + 1 := by
          simp
          omega
        have hfuel2 : 200 - (acc ++ (r :: rs)).length < fuel := by omega
        obtain ⟨n, hres, hgood, hlt, hstop⟩ := ih (fun k => backend (k + 1)) (acc ++ (r :: rs)) hfuel2
        have hshift : ∀ m : Nat, (acc ++ (r :: rs)) ++ accumPages (fun k => backend (k + 1)) m =
            acc ++ accumPages backend (m + 1) := by
          intro m
          rw [List.append_assoc, show (r :: rs : List α) = pageRecs (backend 0) from by rw [hb]; rfl,
            accumPages_shift]
        refine ⟨n + 1, ?_, ?_, ?_, ?_⟩
        · have hstep : fetch_reviews_loop (fuel + 1) backend acc =
              fetch_reviews_loop fuel (fun k => backend (k + 1)) (acc ++ (r :: rs)) := by
            simp only [fetch_reviews_loop, hb]
            rw [if_neg hcap]
          rw [hstep, hres, hshift n]
        · intro k hk
          cases k with
          | zero =>
            rw [hb]
            rfl
          | succ j => exact hgood j (by omega)
        · intro k hk
          cases k with
          | zero =>
            rw [hacc1]
            omega
          | succ j =>
            have := hlt j (by omega)
            rw [hshift (j + 1)] at this
            exact this
        · cases hstop with
          | inl hl =>
            left
            rw [hshift n] at hl
            exact hl
          | inr hr =>
            right
            exact hr

/-- C7: for every (simulated) page sequence, fetch_reviews terminates (the
fuelled loop returns within its 201-iteration budget) and returns exactly the
records accumulated over an initial run of non-failing, non-empty pages,
stopping at the first of: a failed response (non-200 or unparseable body), a
page with zero records, or the accumulated count reaching the 200-record
safety cap; a mid-pagination failure thus yields the partial prefix of
results rather than an exception. -/
theorem fetch_reviews_partial_prefix {α : Type} (backend : Nat → PageResp α) :
    ∃ n : Nat,
      fetch_reviews backend = some (accumPages backend n) ∧
      (∀ k, k < n → goodPage (backend k) = true) ∧
      (∀ k, k + 1 < n → (accumPages backend (k + 1)).length < 200) ∧
      (200 ≤ (accumPages backend n).length ∨ goodPage (backend n) = false) := by
  obtain ⟨n, h1, h2, h3, h4⟩ := fetch_reviews_loop_spec 201 backend [] (by simp)
  refine ⟨n, by simpa [fetch_reviews] using h1, h2, ?_, by simpa using h4⟩
  intro k hk
  simpa using h3 k hk

/-! ## Product search — canadiantire_scraper/utils/product_searcher.py

search_products (lines 22-135).  One backend response per loop iteration
(requests differ only in the start offset, which the code recomputes as
len(all_products); the recursion shifts the response stream).  The fixed
constants of the code: rows_per_page = 50, max_empty_pages = 3.  A raw
search-API product is typed per the fields the code reads; images are a list
of dicts so that _get_main_image is total, as it is on well-formed search
responses. -/

/-- One product entry of a search page, with the fields read at
lines 87-103. -/
structure SearchProduct where
  code : Option String
  title : String := ""
  breadcrumbList : List String := []
  brand : Json := .null
  url : String := ""
  rating : Option ℚ := none
  ratingsCount : Option ℚ := none
  badges : List Json := []
  images : List (List (String × Json)) := []

/-- _extract_category (lines 223-227): last breadcrumb or "Unknown". -/
def extract_category (bs : List String) : String :=
  match bs.getLast? with
  | some c => c
  | none => "Unknown"

/-- Rendering used by Python str() on a JSON value in _extract_brand.  The
exact Python repr of containers and floats is not reproduced; no theorem
depends on this text. -/
def pyStr : Json → String
  | .null => "None"
  | .bool true => "True"
  | .bool false => "False"
  | .num q => toString q
  | .str s => s
  | .arr _ => "[...]"
  | .obj _ => "{...}"

/-- _extract_brand (lines 229-234): label field of a brand dict, else str()
of a truthy value, else the empty string. -/
def extract_brand (brand : Json) : Json :=
  match brand with
  | .obj fields => (objLookup fields "label").getD (.str "")
  | b => if b.truthy then .str (pyStr b) else .str ""

/-- _get_main_image (lines 236-240): url of the first image dict or "". -/
def get_main_image (images : List (List (String × Json))) : Json :=
  match images with
  | [] => .str ""
  | img :: _ => (objLookup img "url").getD (.str "")

/-- The product_info dictionary built at lines 94-104. -/
structure ProductInfo where
  product_id : String
  name : String
  category : String
  brand : Json
  url : String
  rating : Option ℚ
  ratings_count : Option ℚ
  badges : List Json
  image_url : Json

/-- Lines 94-104: build product_info from a raw search product. -/
def mkProductInfo (p : SearchProduct) (pid : String) : ProductInfo where
  product_id := pid
  name := p.title
  category := extract_category p.breadcrumbList
  brand := extract_brand p.brand
  url := "https://www.canadiantire.ca" ++ p.url
  rating := p.rating
  ratings_count := p.ratingsCount
  badges := p.badges
  image_url := get_main_image p.images

/-- One search-API response: `fail` covers a non-200 status and any
exception inside the try block; `ok` carries data.get("products", []) and
data.get("pagination", {}).get("totalResults", 0). -/
inductive SearchResp where
  | fail : SearchResp
  | ok (products : List SearchProduct) (totalResults : Nat) : SearchResp

/-- The for-loop over one page (lines 86-110): skip a product whose code is
missing, empty or already seen; otherwise record it and append its
product_info; stop early once max_products is reached.  Returns the updated
product list, the seen set (as its insertion list) and
new_products_in_page. -/
def processPage (maxProducts : Nat) :
    List SearchProduct → List ProductInfo → List String → Nat →
      List ProductInfo × List String × Nat
  | [], acc, seen, newCount => (acc, seen, newCount)
  | p :: ps, acc, seen, newCount =>
    match p.code with
    | none => processPage maxProducts ps acc seen newCount
    | some pid =>
      if pid = "" ∨ pid ∈ seen then processPage maxProducts ps acc seen newCount
      else
        let acc2 := acc ++ [mkProductInfo p pid]
        let seen2 := seen ++ [pid]
        if maxProducts ≤ acc2.length then (acc2, seen2, newCount + 1)
        else processPage maxProducts ps acc2 seen2 (newCount + 1)

/-- Loop state: all_products, seen_product_ids and
consecutive_empty_pages. -/
structure SearchState where
  all_products : List ProductInfo
  seen : List String
  consecutive_empty : Nat

/-- The while-loop of search_products (lines 50-132).  Guard:
len(all_products) < max_products and consecutive_empty_pages < 3.  An empty
page bumps consecutive_empty_pages and continues; a non-empty page resets the
counter to 0 before processing (line 83) and only then counts a
duplicate-only page (line 124), so after any non-empty page the counter is
exactly 0 or 1.  After processing, the loop breaks when
start_offset + 50 >= totalResults. -/
def search_products_loop (maxProducts : Nat) :
    Nat → (Nat → SearchResp) → SearchState → Option (List ProductInfo × List String)
  | 0, _, _ => none
  | fuel + 1, backend, st =>
    if st.all_products.length < maxProducts ∧ st.consecutive_empty < 3 then
      match backend 0 with
      | .fail => some (st.all_products, st.seen)
      | .ok products totalResults =>
        if products.isEmpty then
          search_products_loop maxProducts fuel (fun k => backend (k + 1))
            { st with consecutive_empty := st.consecutive_empty + 1 }
        else
          let r := processPage maxProducts products st.all_products st.seen 0
          if st.all_products.length + 50 ≥ totalResults then some (r.1, r.2.1)
          else
            search_products_loop maxProducts fuel (fun k => backend (k + 1))
              { all_products := r.1, seen := r.2.1,
                consecutive_empty := if r.2.2 = 0 then 1 else 0 }
    else some (st.all_products, st.seen)

/-- search_products: run the pagination loop from the empty state.  The
result also exposes the final seen_product_ids set for specification. -/
def search_products (maxProducts fuel : Nat) (backend : Nat → SearchResp) :
    Option (List ProductInfo × List String) :=
  search_products_loop maxProducts fuel backend ⟨[], [], 0⟩

/-! ### Divergence of the pagination guard on duplicate-only pages (C2)

A backend that reports totalResults = 1000 and serves the same two product
codes on every page.  The first iteration adds both products; every later
iteration is a duplicate-only page: line 83 resets consecutive_empty_pages
to 0 before line 124 bumps it to 1, so the guard never reaches
max_empty_pages = 3, while start_offset stays at 2 and 2 + 50 < 1000, so the
totalResults break never fires either. -/

/-- A minimal search product carrying only a code. -/
def dupProduct (c : String) : SearchProduct := { code := some c }

/-- The misbehaving backend: same non-empty page forever, large total. -/
def dupBackend : Nat → SearchResp :=
  fun _ => .ok [dupProduct "A", dupProduct "B"] 1000

/-- The loop state reached after two iterations against dupBackend. -/
def dupState : SearchState where
  all_products := [mkProductInfo (dupProduct "A") "A", mkProductInfo (dupProduct "B") "B"]
  seen := ["A", "B"]
  consecutive_empty := 1

lemma search_products_loop_dup_fix :
    ∀ fuel : Nat, search_products_loop 100 fuel dupBackend dupState = none := by
  intro fuel
  induction fuel with
  | zero => rfl
  | succ n ih =>
    have hstep : search_products_loop 100 (n + 1) dupBackend dupState =
        search_products_loop 100 n dupBackend dupState := rfl
    rw [hstep]
    exact ih

/-- C2 (code bug): against a backend whose every page is non-empty but
consists only of already-seen product codes, search_products never
terminates — no amount of loop iterations (fuel) returns a result, so in
particular the loop is not bounded by totalResults / page_size +
max_empty_pages = 1000 / 50 + 3 iterations.  The consecutive-empty-page
guard cannot fire because it is reset at the top of every non-empty page. -/
theorem search_products_duplicate_pages_diverge :
    ∀ fuel : Nat, search_products 100 fuel dupBackend = none := by
  intro fuel
  match fuel with
  | 0 => rfl
  | 1 => rfl
  | n + 2 =>
    have h : search_products 100 (n + 2) dupBackend =
        search_products_loop 100 n dupBackend dupState := rfl
    rw [h]
    exact search_products_loop_dup_fix n

/-! ### Search de-duplication (C8) -/

/-- Invariant tying all_products to the seen set: product ids are distinct
and nonempty, the seen list is exactly the set of recorded ids, and the list
respects the max_products cap. -/
def SearchInv (maxProducts : Nat) (prods : List ProductInfo) (seen : List String) : Prop :=
  (prods.map (fun p => p.product_id)).Nodup ∧
  seen.Nodup ∧
  (∀ x : String, x ∈ seen ↔ x ∈ prods.map (fun p => p.product_id)) ∧
  (∀ x ∈ prods.map (fun p => p.product_id), x ≠ "") ∧
  prods.length = seen.length ∧
  prods.length ≤ maxProducts

lemma processPage_inv (maxProducts : Nat) :
    ∀ (ps : List SearchProduct) (acc : List ProductInfo) (seen : List String) (newCount : Nat),
      SearchInv maxProducts acc seen → acc.length < maxProducts →
      SearchInv maxProducts (processPage maxProducts ps acc seen newCount).1
        (processPage maxProducts ps acc seen newCount).2.1 := by
  intro ps
  induction ps with
  | nil =>
    intro acc seen newCount hinv _
    simpa [processPage] using hinv
  | cons p ps ih =>
    intro acc seen newCount hinv hlt
    obtain ⟨hnd, hsnd, hiff, hne, hlen, _⟩ := hinv
    match hc : p.code with
    | none =>
      simpa [processPage, hc] using ih acc seen newCount ⟨hnd, hsnd, hiff, hne, hlen, by omega⟩ hlt
    | some pid =>
      by_cases hskip : pid = "" ∨ pid ∈ seen
      · simpa [processPage, hc, hskip] using
          ih acc seen newCount ⟨hnd, hsnd, hiff, hne, hlen, by omega⟩ hlt
      · push_neg at hskip
        obtain ⟨hpne, hpnot⟩ := hskip
        have hpnotid : pid ∉ acc.map (fun p => p.product_id) := fun hmem =>
          hpnot ((hiff pid).mpr hmem)
        have hinv2 : SearchInv maxProducts (acc ++ [mkProductInfo p pid]) (seen ++ [pid]) := by
          refine ⟨?_, ?_, ?_, ?_, ?_, ?_⟩
          · rw [List.map_append, List.nodup_append]
            exact ⟨hnd, by simp, by
              intro x hx
              simp only [List.map_cons, List.map_nil, List.mem_cons, List.not_mem_nil,
                or_false, mkProductInfo]
              intro hxeq
              rw [hxeq] at hx
              exact hpnotid hx⟩
          · rw [List.nodup_append]
            exact ⟨hsnd, by simp, by
              intro x hx
              simp only [List.mem_singleton]
              intro hxeq
              rw [hxeq] at hx
              exact hpnot hx⟩
          · intro x
            simp only [List.mem_append, List.map_append, List.mem_singleton,
              List.map_cons, List.map_nil, List.mem_cons, List.not_mem_nil, or_false,
              mkProductInfo]
            rw [hiff x]
          · intro x hx
            rw [List.map_append] at hx
            rcases List.mem_append.mp hx with hx1 | hx2
            · exact hne x hx1
            · simp only [List.map_cons, List.map_nil, List.mem_cons, List.not_mem_nil,
                or_false, mkProductInfo] at hx2
              rw [hx2]
              exact hpne
          · simp [hlen]
          · simp
            omega
        by_cases hcap : maxProducts ≤ (acc ++ [mkProductInfo p pid]).length
        · have hres : processPage maxProducts (p :: ps) acc seen newCount =
              (acc ++ [mkProductInfo p pid], seen ++ [pid], newCount + 1) := by
            simp only [processPage, hc]
            rw [if_neg (by tauto), if_pos hcap]
          rw [hres]
          exact hinv2
        · have hres : processPage maxProducts (p :: ps) acc seen newCount =
              processPage maxProducts ps (acc ++ [mkProductInfo p pid]) (seen ++ [pid])
                (newCount + 1) := by
            simp only [processPage, hc]
            rw [if_neg (by tauto), if_neg hcap]
          rw [hres]
          exact ih _ _ _ hinv2 (by simp at hcap ⊢; omega)

lemma search_products_loop_inv (maxProducts : Nat) :
    ∀ (fuel : Nat) (backend : Nat → SearchResp) (st : SearchState)
      (prods : List ProductInfo) (seen : List String),
      SearchInv maxProducts st.all_products st.seen →
      search_products_loop maxProducts fuel backend st = some (prods, seen) →
      SearchInv maxProducts prods seen := by
  intro fuel
  induction fuel with
  | zero =>
    intro backend st prods seen _ h
    simp [search_products_loop] at h
  | succ fuel ih =>
    intro backend st prods seen hinv h
    by_cases hguard : st.all_products.length < maxProducts ∧ st.consecutive_empty < 3
    · rw [search_products_loop, if_pos hguard] at h
      match hb : backend 0 with
      | .fail =>
        rw [hb] at h
        simp only [] at h
        obtain ⟨h1, h2⟩ := Prod.mk.injEq .. ▸ (Option.some.injEq .. ▸ h)
        rw [← h1, ← h2]
        exact hinv
      | .ok products totalResults =>
        rw [hb] at h
        simp only [] at h
        by_cases hemp : products.isEmpty
        · rw [if_pos hemp] at h
          exact ih (fun k => backend (k + 1))
            ⟨st.all_products, st.seen, st.consecutive_empty + 1⟩ prods seen hinv h
        · rw [if_neg hemp] at h
          have hpinv := processPage_inv maxProducts products st.all_products st.seen 0
            hinv hguard.1
          by_cases htot : st.all_products.length + 50 ≥ totalResults
          · rw [if_pos htot] at h
            obtain ⟨h1, h2⟩ := Prod.mk.injEq .. ▸ (Option.some.injEq .. ▸ h)
            rw [← h1, ← h2]
            exact hpinv
          · rw [if_neg htot] at h
            exact ih _ _ _ _ hpinv h
    · rw [search_products_loop, if_neg hguard] at h
      obtain ⟨h1, h2⟩ := Prod.mk.injEq .. ▸ (Option.some.injEq .. ▸ h)
      rw [← h1, ← h2]
      exact hinv

/-- C8: whenever search_products returns (for any simulated page sequence,
overlapping product ids across pages included), the returned product list
has pairwise-distinct product_ids, every id is nonempty, the ids are exactly
the seen set, the list length equals the number of distinct nonempty ids
recorded as seen, and the length never exceeds max_products.  Duplicate ids
are skipped by a total code path (no exception is modelled or needed). -/
theorem search_products_dedup (maxProducts fuel : Nat) (backend : Nat → SearchResp)
    (prods : List ProductInfo) (seen : List String)
    (h : search_products maxProducts fuel backend = some (prods, seen)) :
    (prods.map (fun p => p.product_id)).Nodup ∧
    seen.Nodup ∧
    (∀ x : String, x ∈ seen ↔ x ∈ prods.map (fun p => p.product_id)) ∧
    (∀ x ∈ prods.map (fun p => p.product_id), x ≠ "") ∧
    prods.length = seen.length ∧
    prods.length ≤ maxProducts :=
  search_products_loop_inv maxProducts fuel backend ⟨[], [], 0⟩ prods seen
    ⟨by simp, by simp, by simp, by simp, rfl, by simp⟩ h

/-- A terminating witness backend: one page with an in-page duplicate and a
small totalResults, so the loop breaks at the totalResults check. -/
def wBackend : Nat → SearchResp :=
  fun _ => .ok [dupProduct "A", dupProduct "B", dupProduct "A"] 40

/-- The products and seen set that search_products returns on wBackend. -/
def wProds : List ProductInfo :=
  [mkProductInfo (dupProduct "A") "A", mkProductInfo (dupProduct "B") "B"]

/-- Seen set for the witness run. -/
def wSeen : List String := ["A", "B"]

/-- C8 witness: the dedup theorem applied to a concrete run whose page
contains an overlapping product id. -/
theorem search_products_dedup_witness :
    (wProds.map (fun p => p.product_id)).Nodup ∧
    wSeen.Nodup ∧
    (∀ x : String, x ∈ wSeen ↔ x ∈ wProds.map (fun p => p.product_id)) ∧
    (∀ x ∈ wProds.map (fun p => p.product_id), x ≠ "") ∧
    wProds.length = wSeen.length ∧
    wProds.length ≤ 5 :=
  search_products_dedup 5 1 wBackend wProds wSeen rfl

/-! ## Orchestrator — canadiantire_scraper/orchestrator.py

scrape_single_product (lines 47-149).  The collaborating components are
modelled by their observable outcomes: review_scraper.scrape_product and
selenium_scraper.scrape_product_reviews either raise or return a product
whose reviews list is what the workflow inspects; the data_manager save
calls either raise or return a file path; price_scraper.fetch_product_price
never raises (its body is wrapped in its own try/except, price_scraper.py
lines 61-141) and returns an optional PriceInfo. -/

/-- Outcomes of the collaborators for one scrape_single_product call. -/
structure OrchestratorEnv where
  apiReviews : Except String (List Review)
  apiSave : Except String String
  seleniumReviews : Except String (List Review)
  seleniumSave : Except String String
  price : Option PriceInfo
  priceSave : Except String String

/-- The result dictionary of scrape_single_product (lines 68-76 plus the
keys added later): status, reviews_source, reviews_count, price_available,
files_saved, the optional error message, and the product key (reviews plus
attached price) set at line 142 only when no exception occurred before it. -/
structure ScrapeResult where
  product_id : String
  name : String
  status : String
  reviews_source : Option String
  reviews_count : Nat
  price_available : Bool
  files_saved : List String
  error : Option String
  product : Option (List Review × Option PriceInfo)

/-- Step 3 (lines 123-141): price scraping when requested.  A present price
sets price_available (and mutates product.price_info) before the price save
runs, so a raising save leaves price_available already true; an absent price
changes nothing.  Line 142 then sets the product key.  The second component
is the pending exception, none when the try block completed. -/
def scrapePriceStep (env : OrchestratorEnv) (includePrice : Bool)
    (r : ScrapeResult) (reviews : List Review) : ScrapeResult × Option String :=
  if includePrice then
    match env.price with
    | some pi =>
      match env.priceSave with
      | .error e => ({ r with price_available := true }, some e)
      | .ok pf =>
        let r2 := { r with price_available := true, files_saved := r.files_saved ++ [pf], product := some (reviews, some pi) }
        (r2, none)
    | none => ({ r with product := some (reviews, none) }, none)
  else ({ r with product := some (reviews, none) }, none)

/-- The try block of scrape_single_product (lines 78-142): API scraping,
optional Selenium fallback, optional price step.  Returns the result record
as mutated so far, plus the pending exception if one was raised. -/
def scrapeSteps (env : OrchestratorEnv) (pid name : String)
    (includePrice useSeleniumFallback : Bool) : ScrapeResult × Option String :=
  let r0 : ScrapeResult :=
    { product_id := pid, name := name, status := "success", reviews_source := none,
      reviews_count := 0, price_available := false, files_saved := [], error := none,
      product := none }
  match env.apiReviews with
  | .error e => (r0, some e)
  | .ok reviews =>
    if !reviews.isEmpty then
      let r1 := { r0 with reviews_source := some "api", reviews_count := reviews.length }
      match env.apiSave with
      | .error e => (r1, some e)
      | .ok f => scrapePriceStep env includePrice { r1 with files_saved := [f] } reviews
    else if useSeleniumFallback then
      match env.seleniumReviews with
      | .error e => (r0, some e)
      | .ok sReviews =>
        if !sReviews.isEmpty then
          let r1 := { r0 with reviews_source := some "selenium", reviews_count := sReviews.length }
          match env.seleniumSave with
          | .error e => (r1, some e)
          | .ok f => scrapePriceStep env includePrice { r1 with files_saved := [f] } sReviews
        else scrapePriceStep env includePrice { r0 with status := "no_reviews" } reviews
    else scrapePriceStep env includePrice { r0 with status := "no_reviews" } reviews

/-- scrape_single_product (lines 47-149): the except-clause (lines 144-147)
turns a pending exception into status = error with the message retained; the
function itself always returns a record, never re-raising. -/
def scrape_single_product (env : OrchestratorEnv) (pid name : String)
    (includePrice useSeleniumFallback : Bool) : ScrapeResult :=
  match scrapeSteps env pid name includePrice useSeleniumFallback with
  | (r, some e) => { r with status := "error", error := some e }
  | (r, none) => r

lemma scrapePriceStep_price_none (env : OrchestratorEnv) (hp : env.price = none)
    (r : ScrapeResult) (reviews : List Review) (b : Bool) :
    scrapePriceStep env b r reviews = ({ r with product := some (reviews, none) }, none) := by
  cases b <;> simp [scrapePriceStep, hp]

lemma scrapePriceStep_status (env : OrchestratorEnv) (b : Bool) (r : ScrapeResult)
    (reviews : List Review) : (scrapePriceStep env b r reviews).1.status = r.status := by
  unfold scrapePriceStep
  cases b
  · rfl
  · cases env.price with
    | none => rfl
    | some pi =>
      cases env.priceSave with
      | error e => rfl
      | ok pf => rfl

lemma scrapeSteps_status (env : OrchestratorEnv) (pid name : String)
    (includePrice useSeleniumFallback : Bool) :
    (scrapeSteps env pid name includePrice useSeleniumFallback).1.status = "success" ∨
    (scrapeSteps env pid name includePrice useSeleniumFallback).1.status = "no_reviews" := by
  unfold scrapeSteps
  cases env.apiReviews with
  | error e => exact Or.inl rfl
  | ok reviews =>
    simp only []
    cases hre : reviews.isEmpty with
    | false =>
      cases env.apiSave with
      | error e => simp
      | ok f => simp [scrapePriceStep_status]
    | true =>
      cases useSeleniumFallback with
      | false => simp [scrapePriceStep_status]
      | true =>
        cases env.seleniumReviews with
        | error e => simp
        | ok sReviews =>
          simp only []
          cases hse : sReviews.isEmpty with
          | false =>
            cases env.seleniumSave with
            | error e => simp
            | ok f => simp [scrapePriceStep_status]
          | true => simp [scrapePriceStep_status]

/-- C3: scrape_single_product never propagates an exception: it is a total
function into result records whose status is one of success, no_reviews,
error.  When the try block ends with a pending exception, the record carries
status error and retains the message.  When the price fetch returns no data
(fetch_product_price cannot itself raise: its body is wrapped in its own
try/except), the status equals the status of the price-free run, i.e. the
review outcome of steps 1-3 is unchanged. -/
theorem scrape_single_product_spec (env : OrchestratorEnv) (pid name : String)
    (includePrice useSeleniumFallback : Bool) :
    ((scrape_single_product env pid name includePrice useSeleniumFallback).status = "success" ∨
     (scrape_single_product env pid name includePrice useSeleniumFallback).status = "no_reviews" ∨
     (scrape_single_product env pid name includePrice useSeleniumFallback).status = "error") ∧
    (∀ (pr : ScrapeResult) (e : String),
      scrapeSteps env pid name includePrice useSeleniumFallback = (pr, some e) →
      (scrape_single_product env pid name includePrice useSeleniumFallback).status = "error" ∧
      (scrape_single_product env pid name includePrice useSeleniumFallback).error = some e) ∧
    (includePrice = true → env.price = none →
      (scrape_single_product env pid name includePrice useSeleniumFallback).status =
        (scrape_single_product env pid name false useSeleniumFallback).status) := by
  refine ⟨?_, ?_, ?_⟩
  · match hsp : scrapeSteps env pid name includePrice useSeleniumFallback with
    | (r, some e) =>
      refine Or.inr (Or.inr ?_)
      simp [scrape_single_product, hsp]
    | (r, none) =>
      have hst := scrapeSteps_status env pid name includePrice useSeleniumFallback
      rw [hsp] at hst
      have hres : scrape_single_product env pid name includePrice useSeleniumFallback = r := by
        simp [scrape_single_product, hsp]
      rw [hres]
      rcases hst with h | h
      · exact Or.inl h
      · exact Or.inr (Or.inl h)
  · intro pr e h
    simp [scrape_single_product, h]
  · intro hip hp
    subst hip
    have hsteps : scrapeSteps env pid name true useSeleniumFallback =
        scrapeSteps env pid name false useSeleniumFallback := by
      unfold scrapeSteps
      cases env.apiReviews with
      | error e => rfl
      | ok reviews =>
        simp only []
        cases hre : reviews.isEmpty with
        | false =>
          cases env.apiSave with
          | error e => rfl
          | ok f => simp [scrapePriceStep_price_none env hp]
        | true =>
          cases useSeleniumFallback with
          | false => simp [scrapePriceStep_price_none env hp]
          | true =>
            cases env.seleniumReviews with
            | error e => rfl
            | ok sReviews =>
              simp only []
              cases hse : sReviews.isEmpty with
              | false =>
                cases env.seleniumSave with
                | error e => rfl
                | ok f =>
                  simp [scrapePriceStep_price_none env hp]
              | true =>
                simp [scrapePriceStep_price_none env hp]
    unfold scrape_single_product
    rw [hsteps]

/-! ## Data manager — canadiantire_scraper/utils/data_manager.py

get_failed_products (lines 222-280).  The summary file contents are the
per-product result records (`results`); the already-scraped set computed by
load_existing_product_ids is passed in as `scraped`.  A record field read
with .get is `none` when the key is missing or null. -/

/-- One result record of a run summary, with the fields lines 262-277
read. -/
structure SummaryRec where
  product_id : Option String
  status : Option String
  name : Option String
  error : Option String
deriving DecidableEq, Repr

/-- One entry of the returned failed-products list (lines 272-277). -/
structure FailedProduct where
  product_id : String
  name : String
  status : String
  error : String
deriving DecidableEq, Repr

/-- Lines 262-277: keep a record iff status is error or no_reviews, the
product_id is present and truthy, and the id is not already scraped. -/
def get_failed_products_core (results : List SummaryRec) (scraped : List String) :
    List FailedProduct :=
  results.filterMap (fun r =>
    match r.status, r.product_id with
    | some st, some pid =>
      if (st = "error" ∨ st = "no_reviews") ∧ pid ≠ "" ∧ pid ∉ scraped then
        some { product_id := pid, name := r.name.getD ("Product " ++ pid),
               status := st, error := r.error.getD "" }
      else none
    | _, _ => none)

/-- C4 counterexample summary: two error records for p1, and for p2 a
success record alongside a no_reviews record. -/
def cexResults : List SummaryRec :=
  [{ product_id := some "p1", status := some "error", name := none, error := none },
   { product_id := some "p1", status := some "error", name := none, error := none },
   { product_id := some "p2", status := some "success", name := none, error := none },
   { product_id := some "p2", status := some "no_reviews", name := none, error := none }]

/-- C4 counterexample: get_failed_products appends one resume entry per
qualifying record with no per-product deduplication (data_manager.py lines
262-277).  On cexResults with an empty already-scraped set, product p1
(status error, not scraped) appears twice in the resume list, not exactly
once; and p2, a product with a recorded success status, appears in the
resume list (through its no_reviews record). -/
theorem get_failed_products_counterexample :
    ((get_failed_products_core cexResults []).map (fun f => f.product_id)).count "p1" = 2 ∧
    (∃ r ∈ cexResults, r.product_id = some "p2" ∧ r.status = some "success") ∧
    "p2" ∈ (get_failed_products_core cexResults []).map (fun f => f.product_id) := by
  decide

/-- C4 (amended): resume entries are per-record, not per-product.  For every
summary, already-scraped set and product id, the number of occurrences of
the id in the resume list equals the number of summary records that carry
this id with status error or no_reviews, a nonempty id, and an id outside
the already-scraped set.  In particular one qualifying failing record
contributes exactly one entry — so each such product appears exactly once
when the summary holds at most one record per product — and an id all of
whose records have status success is never in the resume list; but duplicate
failing records yield duplicate entries, and one failing record is enough to
list a product that elsewhere records a success. -/
theorem get_failed_products_count (results : List SummaryRec) (scraped : List String)
    (pid : String) :
    ((get_failed_products_core results scraped).map (fun f => f.product_id)).count pid =
      results.countP (fun r => r.product_id = some pid ∧
        (r.status = some "error" ∨ r.status = some "no_reviews") ∧
        pid ≠ "" ∧ pid ∉ scraped) := by
  induction results with
  | nil => simp [get_failed_products_core]
  | cons a rest ih =>
    match hs : a.status, hp : a.product_id with
    | some st, some pid2 =>
      by_cases hc : (st = "error" ∨ st = "no_reviews") ∧ pid2 ≠ "" ∧ pid2 ∉ scraped
      · have hcore : get_failed_products_core (a :: rest) scraped =
            { product_id := pid2, name := a.name.getD ("Product " ++ pid2),
              status := st, error := a.error.getD "" } :: get_failed_products_core rest scraped := by
          simp [get_failed_products_core, hs, hp, hc]
        by_cases hpe : pid2 = pid
        · subst hpe
          have hpred : a.product_id = some pid2 ∧
              (a.status = some "error" ∨ a.status = some "no_reviews") ∧
              pid2 ≠ "" ∧ pid2 ∉ scraped := by
            refine ⟨hp, ?_, hc.2.1, hc.2.2⟩
            rcases hc.1 with h | h
            · exact Or.inl (by rw [hs, h])
            · exact Or.inr (by rw [hs, h])
          rw [hcore, List.map_cons, List.count_cons, List.countP_cons, ← ih]
          simp [hpred]
        · have hpred : ¬ (a.product_id = some pid ∧
              (a.status = some "error" ∨ a.status = some "no_reviews") ∧
              pid ≠ "" ∧ pid ∉ scraped) := by
            intro hcon
            exact hpe (Option.some_injective _ (hp ▸ hcon.1))
          rw [hcore, List.map_cons, List.count_cons, List.countP_cons, ← ih]
          simp [hpred, hpe]
      · have hcore : get_failed_products_core (a :: rest) scraped =
            get_failed_products_core rest scraped := by
          simp [get_failed_products_core, hs, hp, hc]
        have hpred : ¬ (a.product_id = some pid ∧
            (a.status = some "error" ∨ a.status = some "no_reviews") ∧
            pid ≠ "" ∧ pid ∉ scraped) := by
          rintro ⟨h1, h2, h3, h4⟩
          have hpe : pid2 = pid := Option.some_injective _ (hp ▸ h1)
          subst hpe
          refine hc ⟨?_, h3, h4⟩
          rw [hs] at h2
          rcases h2 with h | h
          · exact Or.inl (Option.some_injective _ h)
          · exact Or.inr (Option.some_injective _ h)
        rw [hcore, List.countP_cons, ← ih]
        simp [hpred]
    | some st, none =>
      have hcore : get_failed_products_core (a :: rest) scraped =
          get_failed_products_core rest scraped := by
        simp [get_failed_products_core, hs, hp]
      have hpred : ¬ (a.product_id = some pid ∧
          (a.status = some "error" ∨ a.status = some "no_reviews") ∧
          pid ≠ "" ∧ pid ∉ scraped) := by
        rintro ⟨h1, _, _, _⟩
        rw [hp] at h1
        exact absurd h1 (by simp)
      rw [hcore, List.countP_cons, ← ih]
      simp [hpred]
    | none, _ =>
      have hcore : get_failed_products_core (a :: rest) scraped =
          get_failed_products_core rest scraped := by
        simp [get_failed_products_core, hs]
      have hpred : ¬ (a.product_id = some pid ∧
          (a.status = some "error" ∨ a.status = some "no_reviews") ∧
          pid ≠ "" ∧ pid ∉ scraped) := by
        rintro ⟨_, h2, _, _⟩
        rw [hs] at h2
        rcases h2 with h | h <;> exact absurd h (by simp)
      rw [hcore, List.countP_cons, ← ih]
      simp [hpred]

/-! ## CLI — canadiantire_scraper/cli.py

main (lines 296-342) and the command handlers.  Each handler's network-level
work is modelled by its observable outcome; the handler bodies' boolean
results follow lines 152-293.  Config.validate_config raising ValueError and
any other exception inside the try block are the env's failure fields. -/

/-- Recognized CLI subcommands. -/
inductive CliCommand where
  | single : CliCommand
  | batch : CliCommand
  | discover : CliCommand
  | resume : CliCommand
  | stats : CliCommand
  | search : CliCommand
deriving DecidableEq, Repr

/-- Observable outcomes of one CLI invocation's work: whether configuration
validation passes, whether an unexpected exception occurs, the single
product's result status, the loaded batch product list (empty → early
False), and the per-product statuses each multi-product operation
reports. -/
structure CliEnv where
  configOk : Bool
  unexpected : Option String
  singleStatus : String
  batchProducts : List String
  batchResults : List String
  discoverResults : List String
  resumeResults : List String

/-- Number of per-product records with status success in a result list. -/
def countSuccess (rs : List String) : Nat :=
  (rs.filter (fun r => r = "success")).length

/-- command_single (lines 152-174): True iff the result status is
success. -/
def command_single (env : CliEnv) : Bool :=
  env.singleStatus = "success"

/-- command_batch (lines 177-202): False on an empty loaded product list,
else True iff at least one success. -/
def command_batch (env : CliEnv) : Bool :=
  if env.batchProducts.isEmpty then false else 0 < countSuccess env.batchResults

/-- command_discover (lines 205-218): True iff at least one success. -/
def command_discover (env : CliEnv) : Bool :=
  0 < countSuccess env.discoverResults

/-- command_resume (lines 221-234): True when the resume set is empty,
else True iff at least one success. -/
def command_resume (env : CliEnv) : Bool :=
  if env.resumeResults.isEmpty then true else 0 < countSuccess env.resumeResults

/-- command_stats (lines 237-253): always True. -/
def command_stats (_ : CliEnv) : Bool :=
  true

/-- command_search (lines 256-293): always True. -/
def command_search (_ : CliEnv) : Bool :=
  true

/-- main (lines 296-342) for a recognized subcommand: configuration error →
1; unexpected exception → 1; otherwise 0 iff the dispatched handler returned
True. -/
def cliMain (cmd : CliCommand) (env : CliEnv) : Nat :=
  if !env.configOk then 1
  else
    match env.unexpected with
    | some _ => 1
    | none =>
      let success :=
        match cmd with
        | .single => command_single env
        | .batch => command_batch env
        | .discover => command_discover env
        | .resume => command_resume env
        | .stats => command_stats env
        | .search => command_search env
      if success then 0 else 1

/-- Per-product successes an operation reports, in the claim's sense: the
stats and search commands report none. -/
def reportedSuccesses (cmd : CliCommand) (env : CliEnv) : Nat :=
  match cmd with
  | .single => countSuccess [env.singleStatus]
  | .batch => countSuccess env.batchResults
  | .discover => countSuccess env.discoverResults
  | .resume => countSuccess env.resumeResults
  | .stats => 0
  | .search => 0

/-- A healthy environment in which the stats command runs: no configuration
error, no exception, and no per-product successes anywhere. -/
def statsEnv : CliEnv where
  configOk := true
  unexpected := none
  singleStatus := "no_reviews"
  batchProducts := []
  batchResults := []
  discoverResults := []
  resumeResults := []

/-- C9 counterexample: the stats subcommand exits 0 while reporting zero
per-product successes, refuting exit-0-iff-at-least-one-success. -/
theorem cli_exit_code_counterexample :
    ¬ (cliMain .stats statsEnv = 0 ↔ 1 ≤ reportedSuccesses .stats statsEnv) := by
  decide

/-- C9 (amended): for a recognized subcommand with valid configuration and
no unexpected exception, single exits 0 iff the product status is success;
batch exits 0 iff the loaded list is non-empty and at least one product
succeeds; discover exits 0 iff at least one product succeeds; resume exits 0
iff the resume set is empty or at least one retry succeeds; stats and search
always exit 0.  A configuration error or unexpected exception exits 1 for
every subcommand. -/
theorem cliMain_exit_spec (env : CliEnv) :
    (env.configOk = false → ∀ cmd : CliCommand, cliMain cmd env = 1) ∧
    (∀ e : String, env.unexpected = some e → ∀ cmd : CliCommand, cliMain cmd env = 1) ∧
    (env.configOk = true → env.unexpected = none →
      ((cliMain .single env = 0 ↔ env.singleStatus = "success") ∧
       (cliMain .batch env = 0 ↔ (¬ env.batchProducts.isEmpty ∧ 1 ≤ countSuccess env.batchResults)) ∧
       (cliMain .discover env = 0 ↔ 1 ≤ countSuccess env.discoverResults) ∧
       (cliMain .resume env = 0 ↔ (env.resumeResults.isEmpty ∨ 1 ≤ countSuccess env.resumeResults)) ∧
       cliMain .stats env = 0 ∧ cliMain .search env = 0)) := by
  refine ⟨?_, ?_, ?_⟩
  · intro hcfg cmd
    simp [cliMain, hcfg]
  · intro e hun cmd
    cases hcfg : env.configOk <;> simp [cliMain, hcfg, hun]
  · intro hcfg hun
    refine ⟨?_, ?_, ?_, ?_, ?_, ?_⟩
    · simp [cliMain, hcfg, hun, command_single]
    · by_cases hbe : env.batchProducts.isEmpty
      · simp [cliMain, hcfg, hun, command_batch, hbe]
      · simp [cliMain, hcfg, hun, command_batch, hbe]
        omega
    · simp [cliMain, hcfg, hun, command_discover]
      omega
    · by_cases hre : env.resumeResults.isEmpty
      · simp [cliMain, hcfg, hun, command_resume, hre]
      · simp [cliMain, hcfg, hun, command_resume, hre]
        omega
    · simp [cliMain, hcfg, hun, command_stats]
    · simp [cliMain, hcfg, hun, command_search]

end Scraper
